import Mathlib

/-!
Verification model of the LightRagNotebookLM ingestion, indexing and retrieval
pipeline.  Definitions are shallow embeddings of the Python source files:

* `PyHash`     — CPython per-process salted string hashing (siphash13 keyed by
                 the process hash secret), used by the vector gateway to derive
                 point ids in `indexing_worker/app/core/qdrant.py`.
* `Qdrant`     — the vector gateway `upsert_chunks`, `delete_document_chunks`
                 and `search_similar` plus the agent-side filtered search.
* `Worker`     — the indexing worker document and URL pipelines.
* `Backend`    — rate limiting, upload and delete services, notebook-source
                 membership.
* `Agent`      — the `look_up_sources` retrieval tool.
-/

namespace PyHash

/-- 2 to the power 64, the modulus of 64-bit machine arithmetic. -/
def M64 : Nat := 18446744073709551616

/-- 2 to the power 32, the modulus of the 32-bit LCG used to expand
`PYTHONHASHSEED` into the hash secret. -/
def M32 : Nat := 4294967296

/-- Rotate a 64-bit value left by `n` bits, `0 < n < 64`. -/
def rotl64 (x n : Nat) : Nat := ((x <<< n) % M64) ||| (x >>> (64 - n))

/-- State of the siphash mixer: four 64-bit lanes. -/
structure SipState where
  v0 : Nat
  v1 : Nat
  v2 : Nat
  v3 : Nat
deriving Repr, DecidableEq

/-- HALF_ROUND of CPython pyhash.c: add, rotate, xor on four lanes. -/
def halfRound (a b c d s t : Nat) : Nat × Nat × Nat × Nat :=
  let a := (a + b) % M64
  let c := (c + d) % M64
  let b := rotl64 b s ^^^ a
  let d := rotl64 d t ^^^ c
  let a := rotl64 a 32
  (a, b, c, d)

/-- SINGLE_ROUND of CPython pyhash.c: two half rounds with rotation
constants (13, 16) and (17, 21). -/
def singleRound (st : SipState) : SipState :=
  let (v0, v1, v2, v3) := halfRound st.v0 st.v1 st.v2 st.v3 13 16
  let (v2, v1, v0, v3) := halfRound v2 v1 v0 v3 17 21
  ⟨v0, v1, v2, v3⟩

/-- Little-endian interpretation of a byte list as a natural number. -/
def le64 (bs : List Nat) : Nat := bs.foldr (fun b acc => b + 256 * acc) 0

/-- Main loop of siphash: absorb full 8-byte blocks, return the state and
the remaining tail of fewer than 8 bytes. -/
def sipLoop : SipState → List Nat → SipState × List Nat
  | st, b0 :: b1 :: b2 :: b3 :: b4 :: b5 :: b6 :: b7 :: rest =>
      let mi := le64 [b0, b1, b2, b3, b4, b5, b6, b7]
      let st := singleRound { st with v3 := st.v3 ^^^ mi }
      sipLoop { st with v0 := st.v0 ^^^ mi } rest
  | st, rest => (st, rest)

/-- siphash13 exactly as in CPython pyhash.c (the default string hash
algorithm since CPython 3.11): keyed by the two 64-bit halves of the
process hash secret. -/
def siphash13 (k0 k1 : Nat) (data : List Nat) : Nat :=
  let b0 := (data.length <<< 56) % M64
  let init : SipState :=
    ⟨k0 ^^^ 0x736f6d6570736575, k1 ^^^ 0x646f72616e646f6d,
     k0 ^^^ 0x6c7967656e657261, k1 ^^^ 0x7465646279746573⟩
  let (st, tail) := sipLoop init data
  let b := b0 ||| le64 tail
  let st := singleRound { st with v3 := st.v3 ^^^ b }
  let st := { st with v0 := st.v0 ^^^ b, v2 := st.v2 ^^^ 0xff }
  let st := singleRound (singleRound (singleRound st))
  (st.v0 ^^^ st.v1) ^^^ (st.v2 ^^^ st.v3)

/-- One step of the 32-bit linear congruential generator CPython uses in
bootstrap_hash.c (lcg_urandom) to expand a fixed `PYTHONHASHSEED` into the
24-byte hash secret. -/
def lcgNext (x : Nat) : Nat := (x * 214013 + 2531011) % M32

/-- The byte stream of lcg_urandom: each step emits bits 16..23 of the
updated LCG state. -/
def lcgBytes : Nat → Nat → List Nat
  | _, 0 => []
  | x, n + 1 =>
      let x := lcgNext x
      ((x >>> 16) % 256) :: lcgBytes x n

/-- Hash secret (k0, k1) of a process started with `PYTHONHASHSEED=seed`:
seed 0 disables salting (all-zero secret), any other seed expands through
the LCG; the first 16 bytes little-endian give the two siphash keys.
A process started without `PYTHONHASHSEED` draws the secret from the OS
random source, so distinct worker processes generally hold distinct
secrets; the repository never pins the seed. -/
def keyFromSeed (seed : Nat) : Nat × Nat :=
  if seed = 0 then (0, 0)
  else
    let buf := lcgBytes seed 24
    (le64 (buf.take 8), le64 ((buf.drop 8).take 8))

/-- UTF-8 bytes of an ASCII string (all ids hashed by the gateway are
ASCII strings: UUID text and decimal chunk indices). -/
def asciiBytes (s : String) : List Nat := s.data.map Char.toNat

/-- CPython string hash with the process secret (k0, k1), as an unsigned
64-bit value: the empty string hashes to 0, and the value the signed view
would read as -1 is replaced by the value read as -2. -/
def pyHashU (k0 k1 : Nat) (s : String) : Nat :=
  let bs := asciiBytes s
  if bs = [] then 0
  else
    let h := siphash13 k0 k1 bs
    if h = M64 - 1 then M64 - 2 else h

end PyHash

namespace Qdrant

/-- JSON-like values stored in a point payload or a chunk dict. -/
inductive PVal where
  | str (s : String)
  | num (n : Nat)
  | obj (fields : List (String × PVal))

/-- Dictionaries (chunk dicts, payloads, metadata) as the association
lists the Python code constructs, first binding wins on lookup. -/
abbrev Dict := List (String × PVal)

/-- Python `d[k]` and `d.get(k)`: the first binding of the key. -/
def dictGet (d : Dict) (k : String) : Option PVal :=
  match d.find? (fun kv => kv.1 == k) with
  | some kv => some kv.2
  | none => none

/-- Python `d.get(k, default)`. -/
def dictGetD (d : Dict) (k : String) (dflt : PVal) : PVal :=
  match dictGet d k with
  | some v => v
  | none => dflt

/-- Does a payload value equal the given string (qdrant MatchValue on a
string value). -/
def PVal.isStr : PVal → String → Bool
  | .str t, s => t == s
  | _, _ => false

/-- FieldCondition with MatchValue: the payload holds the key and its
value is the given string. -/
def payloadMatches (p : Dict) (k v : String) : Bool :=
  match dictGet p k with
  | some pv => pv.isStr v
  | none => false

/-- Vector point. The embedding vector is opaque to every operation the
claims mention, so its type is a parameter. -/
structure Point (V : Type) where
  id : Nat
  vec : V
  payload : Dict

/-- The shared vector collection. -/
abbrev Collection (V : Type) := List (Point V)

/-- Point id computed in upsert_chunks (qdrant.py line 78):
`hash(f"{document_id}_{i}") & 0x7fffffffffffffff` under the process hash
secret (k0, k1).  The mask keeps the low 63 bits of the two-complement
representation of the signed Python hash, which equals the low 63 bits of
the unsigned value. -/
def pointId (k0 k1 : Nat) (document_id : String) (i : Nat) : Nat :=
  PyHash.pyHashU k0 k1 (document_id ++ "_" ++ toString i) &&& 0x7fffffffffffffff

/-- Point payload constructed in upsert_chunks (qdrant.py lines 82-89).
`chunk["text"]` and `chunk["owner_id"]` are bracket lookups that raise
KeyError when absent, hence the Option result; filename and metadata use
`.get` with defaults. -/
def mkPayload (document_id : String) (i : Nat) (chunk : Dict) : Option Dict :=
  match dictGet chunk "text", dictGet chunk "owner_id" with
  | some text, some owner =>
      some [("document_id", .str document_id),
            ("chunk_index", .num i),
            ("chunk_text", text),
            ("filename", dictGetD chunk "filename" (.str "")),
            ("metadata", dictGetD chunk "metadata" (.obj [])),
            ("owner_id", owner)]
  | _, _ => none

/-- One PointStruct of upsert_chunks for chunk index i. -/
def mkPoint {V : Type} (k0 k1 : Nat) (document_id : String) (i : Nat)
    (chunk : Dict) (emb : V) : Option (Point V) :=
  (mkPayload document_id i chunk).map fun pl =>
    { id := pointId k0 k1 document_id i, vec := emb, payload := pl }

/-- All points of one upsert call: `enumerate(zip(chunks, embeddings))`. -/
def mkPoints {V : Type} (k0 k1 : Nat) (document_id : String)
    (chunks : List Dict) (embs : List V) : Option (List (Point V)) :=
  ((chunks.zip embs).enum).mapM fun ie => mkPoint k0 k1 document_id ie.1 ie.2.1 ie.2.2

/-- Qdrant upsert semantics: a point replaces any stored point carrying
the same id; all other stored points survive. -/
def upsertPoints {V : Type} (col : Collection V) (ps : List (Point V)) : Collection V :=
  (List.filter (fun p => !(ps.any (fun q => q.id == p.id))) col) ++ ps

/-- upsert_chunks (qdrant.py lines 59-108): build one point per
(chunk, embedding) pair and upsert them into the collection. -/
def upsert_chunks {V : Type} (k0 k1 : Nat) (col : Collection V)
    (document_id : String) (chunks : List Dict) (embs : List V) :
    Option (Collection V) :=
  (mkPoints k0 k1 document_id chunks embs).map (upsertPoints col)

/-- delete_document_chunks (qdrant.py lines 110-138): delete by a filter
with the single must-condition `document_id = id`; every point whose
payload field document_id equals the id is removed, every other point is
kept. -/
def delete_document_chunks {V : Type} (col : Collection V) (document_id : String) :
    Collection V :=
  List.filter (fun p => !(payloadMatches p.payload "document_id" document_id)) col

/-- Candidate set of search_similar (qdrant.py lines 140-188): with an
owner id the filter keeps only points whose payload owner_id matches;
without one no filter is attached.  Cosine scoring, the score threshold
and the result limit of the real call select a subsequence of exactly
these candidates and never admit a point the filter rejects. -/
def search_similar {V : Type} (col : Collection V) (owner_id : Option String) :
    Collection V :=
  match owner_id with
  | some u => List.filter (fun p => payloadMatches p.payload "owner_id" u) col
  | none => col

/-- Filter terms built by _qdrant_search_with_filter
(notebook_agent.py lines 88-93): two should-terms per selected id, one on
document_id and one on source_id.  No owner term is ever added. -/
def agentShouldTerms (selected : List String) : List (String × String) :=
  selected.flatMap fun sid => [("document_id", sid), ("source_id", sid)]

/-- Candidate set of _qdrant_search_with_filter
(notebook_agent.py lines 72-138): a point qualifies when it matches at
least one should-term; with no selected ids no filter is sent at all and
every stored point qualifies.  Scoring and limit select a subsequence of
these candidates. -/
def qdrant_search_with_filter {V : Type} (col : Collection V)
    (selected : List String) : Collection V :=
  let terms := agentShouldTerms selected
  if terms.isEmpty then col
  else List.filter (fun p => terms.any fun kv => payloadMatches p.payload kv.1 kv.2) col

end Qdrant

namespace Worker

open Qdrant

/-- Processing status enum shared by documents and sources
(indexing_worker/app/models.py). -/
inductive ProcessingStatus where
  | pending
  | processing
  | indexed
  | failed
deriving Repr, DecidableEq

/-- Results of the external effects one worker task performs, in the
order the pipeline consults them: the bytes the blob store returned
(_get_file_data returns empty bytes on any fetch error), the text the
per-kind processor produced, the chunker and embedder of the task, and
whether the vector upsert succeeded.  The logic under test is how
process_document and process_url_source react to each result. -/
structure TaskEnv (V : Type) where
  fileData : List Nat
  extract : Except String String
  splitText : String → List String
  embed : List String → List V
  upsertOk : Bool

/-- Python str.strip(): drop leading and trailing whitespace. -/
def pyStrip (s : String) : String :=
  String.mk (((s.data.dropWhile Char.isWhitespace).reverse.dropWhile
    Char.isWhitespace).reverse)

/-- process_source (indexing_worker.py lines 100-135): a processor error
becomes a ValueError; extracted text that is empty or whitespace-only is
collapsed to the empty string and is not an error. -/
def process_source (res : Except String String) : Except String String :=
  match res with
  | .error e => .error ("Source processing failed: " ++ e)
  | .ok text => .ok (if text == "" || pyStrip text == "" then "" else text)

/-- Observable outcome of one worker task: the boolean the coroutine
returns, the final status written for the entity, and the arguments of
the upsert_chunks call when one was issued. -/
structure TaskRun (V : Type) where
  ok : Bool
  finalStatus : ProcessingStatus
  upsertCall : Option (String × List Dict × List V)

/-- Chunk dicts prepared for Qdrant by process_document
(indexing_worker.py lines 241-249). -/
def docChunkDicts (filename owner_id : String) (metadata : Dict)
    (chunks : List String) : List Dict :=
  chunks.map fun c =>
    [("text", .str c), ("filename", .str filename),
     ("owner_id", .str owner_id), ("metadata", .obj metadata)]

/-- process_document (indexing_worker.py lines 208-267).  Status moves to
processing first; empty file data, empty extracted text, an extraction
error, an embedding count mismatch and a failed upsert each end in
status failed with result False; otherwise the chunks are upserted under
the document id and status becomes indexed. -/
def process_document {V : Type} (env : TaskEnv V) (document_id owner_id : String)
    (filename : String) (metadata : Dict) : TaskRun V :=
  if env.fileData.isEmpty then
    { ok := false, finalStatus := .failed, upsertCall := none }
  else
    match process_source env.extract with
    | .error _ => { ok := false, finalStatus := .failed, upsertCall := none }
    | .ok text =>
      if text == "" then
        { ok := false, finalStatus := .failed, upsertCall := none }
      else
        let chunks := env.splitText text
        let embeddings := env.embed chunks
        if embeddings.isEmpty || embeddings.length != chunks.length then
          { ok := false, finalStatus := .failed, upsertCall := none }
        else
          let qdrantChunks := docChunkDicts filename owner_id metadata chunks
          if env.upsertOk then
            { ok := true, finalStatus := .indexed,
              upsertCall := some (document_id, qdrantChunks, embeddings) }
          else
            { ok := false, finalStatus := .failed,
              upsertCall := some (document_id, qdrantChunks, embeddings) }

/-- Chunk dicts prepared for Qdrant by process_url_source
(indexing_worker.py lines 316-327). -/
def urlChunkDicts (source_id url owner_id : String) (metadata : Dict)
    (chunks : List String) : List Dict :=
  chunks.map fun c =>
    [("text", .str c), ("source_id", .str source_id),
     ("source_type", .str "url"), ("url", .str url),
     ("owner_id", .str owner_id), ("metadata", .obj metadata)]

/-- process_url_source (indexing_worker.py lines 269-349).  The url is
read from the event metadata (a missing or empty url fails the task; the
backend only ever publishes url-source events whose metadata carries a
string url).  The pipeline then mirrors process_document, except that the
upsert is issued with the source id as the document identifier
(line 331). -/
def process_url_source {V : Type} (env : TaskEnv V) (source_id owner_id : String)
    (metadata : Dict) : TaskRun V :=
  match dictGet metadata "url" with
  | none => { ok := false, finalStatus := .failed, upsertCall := none }
  | some (.num _) => { ok := false, finalStatus := .failed, upsertCall := none }
  | some (.obj _) => { ok := false, finalStatus := .failed, upsertCall := none }
  | some (.str url) =>
    if url == "" then
      { ok := false, finalStatus := .failed, upsertCall := none }
    else
      match process_source env.extract with
      | .error _ => { ok := false, finalStatus := .failed, upsertCall := none }
      | .ok text =>
        if text == "" then
          { ok := false, finalStatus := .failed, upsertCall := none }
        else
          let chunks := env.splitText text
          let embeddings := env.embed chunks
          if embeddings.isEmpty || embeddings.length != chunks.length then
            { ok := false, finalStatus := .failed, upsertCall := none }
          else
            let qdrantChunks := urlChunkDicts source_id url owner_id metadata chunks
            if env.upsertOk then
              { ok := true, finalStatus := .indexed,
                upsertCall := some (source_id, qdrantChunks, embeddings) }
            else
              { ok := false, finalStatus := .failed,
                upsertCall := some (source_id, qdrantChunks, embeddings) }

/-- Event dispatch for delete operations
(indexing_worker.py lines 388-392 and 421-425): both a DocumentEvent and
a URLSourceEvent with op d call delete_document_chunks with the entity id. -/
def dispatchDelete {V : Type} (col : Collection V) (entity_id : String) : Collection V :=
  delete_document_chunks col entity_id

end Worker

namespace Backend

open Worker (ProcessingStatus)
open Qdrant (Dict PVal)

/-- Document row of the backend relational model
(fastapi_backend/app/models.py lines 173-185), restricted to the columns
the embedded operations read. -/
structure DocumentRow where
  id : String
  owner_id : String
  object_key : String
  status : ProcessingStatus
deriving Repr, DecidableEq

/-- NotebookSource junction row
(fastapi_backend/app/models.py lines 336-365). -/
structure NotebookSourceRow where
  id : String
  notebook_id : String
  source_id : String
  position : Int
deriving Repr, DecidableEq

/-- Relational state visible to the rate limiter. -/
structure DBState where
  documents : List DocumentRow
  notebookSources : List NotebookSourceRow

/-- Configured cap MAX_CONCURRENT_PROCESSING_PER_USER
(config.py line 178, default 5). -/
def MAX_CONCURRENT_PROCESSING_PER_USER : Nat := 5

/-- Column attribute access on the NotebookSource model class: the
declared string-id columns resolve to their projections; every other
name raises AttributeError when the SQL expression referencing it is
built.  The model (models.py lines 336-365) declares notebook_id,
source_id, position, id and added_at; it declares no document_id. -/
def notebookSourceColumn (name : String) :
    Except String (NotebookSourceRow → String) :=
  if name == "id" then .ok fun r => r.id
  else if name == "notebook_id" then .ok fun r => r.notebook_id
  else if name == "source_id" then .ok fun r => r.source_id
  else .error ("AttributeError: type object NotebookSource has no attribute " ++ name)

/-- check_processing_limit (rate_limiting.py lines 41-65): count the
NotebookSource rows joined to Document on
`NotebookSource.document_id == Document.id`, restricted to processing
documents of the user, and allow iff the count is below the cap.
Building the join on-clause resolves `NotebookSource.document_id` before
any row is read, and that column does not exist on the model. -/
def check_processing_limit (db : DBState) (user_id : String) :
    Except String Bool := do
  let nsDocId ← notebookSourceColumn "document_id"
  let joined := db.notebookSources.filter fun ns =>
    db.documents.any fun d =>
      nsDocId ns == d.id && d.owner_id == user_id && d.status == .processing
  pure (joined.length < MAX_CONCURRENT_PROCESSING_PER_USER)

/-- Typed errors of the file routes (core/file_errors.py), plus the case
of an uncaught Python exception escaping the service. -/
inductive FileError where
  | validation (msg : String)
  | notFound (msg : String)
  | conflict (msg : String)
  | operation (msg : String)
  | pyError (msg : String)
deriving Repr, DecidableEq

/-- Size limits of config.py lines 149-155. -/
def MAX_PDF_SIZE_BYTES : Nat := 10485760
def MAX_DOCX_SIZE_BYTES : Nat := 10485760
def MAX_TXT_SIZE_BYTES : Nat := 10485760
def MIN_FILE_SIZE_BYTES : Nat := 100
def MAX_FILE_SIZE_BYTES : Nat := 104857600

/-- Extension extraction of files.py line 122:
`filename.split('.')[-1].lower() if '.' in filename else ''`. -/
def fileExtension (filename : String) : String :=
  let cs := filename.data
  if cs.contains '.' then
    String.mk ((cs.reverse.takeWhile (fun c => !(c == '.'))).reverse.map Char.toLower)
  else ""

/-- Per-type size limit selection of files.py lines 126-137. -/
def sizeLimitFor (ext mime : String) : Nat :=
  if ext == "pdf" || mime == "application/pdf" then MAX_PDF_SIZE_BYTES
  else if ext == "docx" || ext == "doc"
      || mime == "application/vnd.openxmlformats-officedocument.wordprocessingml.document"
      || mime == "application/msword" then MAX_DOCX_SIZE_BYTES
  else if ext == "txt" || mime == "text/plain" then MAX_TXT_SIZE_BYTES
  else MAX_FILE_SIZE_BYTES

/-- Joint state of the metadata store and the blob bucket. -/
structure StoreState where
  documents : List DocumentRow
  blobs : List String
deriving Repr, DecidableEq

/-- Outcome of the commit the upload performs after the blob write. -/
inductive CommitOutcome where
  | ok
  | integrityError
  | failure
deriving Repr, DecidableEq

/-- Results of the two external writes of one upload: the MinIO put after
its retry wrapper, and the database commit. -/
structure UploadEnv where
  minioPutOk : Bool
  commit : CommitOutcome

/-- upload_file_transactional (files.py lines 88-220).  Steps in source
order: reject empty data; enforce the per-type size cap and the minimum
size; consult the rate limiter when one is injected (an exception from it
propagates, a false verdict becomes a FileValidationError); build the
object key `owner/filename`; fail with FileConflictError when a row with
that (owner, key) already exists, before anything is written; otherwise
add the pending row, put the blob, and commit.  A failed put rolls back
and leaves the state unchanged; a commit integrity violation rolls back
the row but keeps the blob and reports a conflict; any other commit
failure rolls back and removes the blob again. -/
def upload_file_transactional (st : StoreState) (user filename mime : String)
    (data : List Nat) (newId : String) (rl : Option (Except String Bool))
    (env : UploadEnv) : StoreState × Except FileError DocumentRow :=
  if data.isEmpty then
    (st, .error (.validation ("Empty file: " ++ filename)))
  else if data.length > sizeLimitFor (fileExtension filename) mime then
    (st, .error (.validation (filename ++ " exceeds maximum size")))
  else if data.length < MIN_FILE_SIZE_BYTES then
    (st, .error (.validation (filename ++ " is too small")))
  else
    match rl with
    | some (.error e) => (st, .error (.pyError e))
    | some (.ok false) =>
        (st, .error (.validation "Processing limit exceeded. Please wait for some to complete."))
    | _ =>
      let object_key := user ++ "/" ++ filename
      if st.documents.any (fun d => d.owner_id == user && d.object_key == object_key) then
        (st, .error (.conflict ("File already exists: " ++ filename)))
      else
        let row : DocumentRow :=
          { id := newId, owner_id := user, object_key := object_key, status := .pending }
        if !env.minioPutOk then
          (st, .error (.operation ("Failed to upload " ++ filename)))
        else
          match env.commit with
          | .ok =>
              ({ documents := st.documents ++ [row], blobs := st.blobs ++ [object_key] }, .ok row)
          | .integrityError =>
              ({ st with blobs := st.blobs ++ [object_key] },
               .error (.conflict ("File already exists: " ++ filename)))
          | .failure =>
              (st, .error (.operation ("Failed to upload " ++ filename)))

/-- Observable actions of one document deletion, in execution order. -/
inductive DelEv where
  | blobDelete
  | publishEvent
  | rowDelete
  | logInconsistency
deriving Repr, DecidableEq

/-- Results of the two fallible external writes of one deletion: the
MinIO remove after its retry wrapper, and the row delete plus commit
after its retry wrapper. -/
structure DeleteEnv where
  blobDeleteOk : Bool
  rowDeleteOk : Bool

/-- delete_document_transactional (files.py lines 333-389).  Load the row
and verify ownership (NotFound otherwise); delete the blob first — a
failure after retries falls into the generic handler, which logs an
inconsistency and fails the call with the row untouched; then publish the
delete event (its own errors are swallowed); then delete the row — a
failure after the blob is gone likewise logs an inconsistency and fails
the call. -/
def delete_document_transactional (st : StoreState) (user document_id : String)
    (env : DeleteEnv) : StoreState × Except FileError String × List DelEv :=
  match st.documents.find? (fun d => d.id == document_id && d.owner_id == user) with
  | none => (st, .error (.notFound "Document not found"), [])
  | some doc =>
    if !env.blobDeleteOk then
      (st, .error (.operation "Failed to delete document"),
       [.blobDelete, .logInconsistency])
    else
      let st1 : StoreState := { st with blobs := st.blobs.erase doc.object_key }
      if env.rowDeleteOk then
        ({ st1 with documents := st1.documents.filter (fun d => !(d.id == document_id)) },
         .ok document_id,
         [.blobDelete, .publishEvent, .rowDelete])
      else
        (st1, .error (.operation "Failed to delete document"),
         [.blobDelete, .publishEvent, .rowDelete, .logInconsistency])

/-- SQL max over the positions already present: NULL on an empty set. -/
def maxPosition : List Int → Option Int
  | [] => none
  | x :: xs =>
      some (match maxPosition xs with
            | none => x
            | some m => max x m)

/-- Python `x or -1` applied to the Optional max: None and the integer 0
are both falsy, so each becomes -1. -/
def pyOrNeg1 (x : Option Int) : Int :=
  match x with
  | none => -1
  | some v => if v == 0 then -1 else v

/-- Position assignment of add_source_to_notebook
(notebook_sources.py lines 267-276): a supplied position is used as is,
otherwise `(max_position or -1) + 1` over the notebook. -/
def assignedPosition (existing : List Int) (requested : Option Int) : Int :=
  match requested with
  | some p => p
  | none => pyOrNeg1 (maxPosition existing) + 1

/-- add_source_to_notebook (notebook_sources.py lines 236-276), after the
ownership checks: return the existing junction row when the pair already
exists, otherwise insert a new row at the assigned position. -/
def add_source_to_notebook (rows : List NotebookSourceRow)
    (newId notebook_id source_id : String) (position : Option Int) :
    NotebookSourceRow × List NotebookSourceRow :=
  match rows.find? (fun r => r.notebook_id == notebook_id && r.source_id == source_id) with
  | some r => (r, rows)
  | none =>
      let pos := assignedPosition
        (((rows.filter (fun r => r.notebook_id == notebook_id)).map (fun r => r.position)))
        position
      let row : NotebookSourceRow :=
        { id := newId, notebook_id := notebook_id, source_id := source_id, position := pos }
      (row, rows ++ [row])

end Backend

namespace Agent

open Qdrant

/-- Reply of the retrieval tool: either one of its literal message
returns, or the context block formatted from exactly the returned hits
(the block layout of notebook_agent.py lines 211-223 renders floating
point scores, which stay outside the model; no claim inspects it). -/
inductive ToolReply (V : Type) where
  | msg (s : String)
  | context (results : List (Point V))

/-- Counts of the outbound requests one tool invocation issued. -/
structure ToolCalls where
  embedCalls : Nat
  searchCalls : Nat
deriving Repr, DecidableEq

/-- Results of the external services the tool consults: whether
OPENAI_API_KEY is configured, the embedding call result, and a raised
transport error of the vector search when any. -/
structure ToolEnv (V : Type) where
  apiKeySet : Bool
  embed : Except String V
  searchErr : Option String

/-- look_up_sources (notebook_agent.py lines 141-228).  Guards in source
order: a missing injected state returns an internal-error message; an
empty selected_sources list (the `state.get` default when the key is
absent) returns the no-sources sentinel before any embedding or search
request; a missing API key returns a configuration message; an embedding
failure returns a message after one embedding call; otherwise the
filtered vector search runs and its hits are formatted (or a no-results
message when it returns none).  Every branch is an ordinary string
return, never a raised error. -/
def look_up_sources {V : Type} (env : ToolEnv V) (col : Collection V)
    (state : Option (List String)) : ToolReply V × ToolCalls :=
  match state with
  | none => (.msg "Internal error: state not provided. Please try again.", ⟨0, 0⟩)
  | some selected_sources =>
    if selected_sources.isEmpty then
      (.msg "No sources selected. Please select at least one source and try again.", ⟨0, 0⟩)
    else if !env.apiKeySet then
      (.msg "OPENAI_API_KEY not configured on the agent.", ⟨0, 0⟩)
    else
      match env.embed with
      | .error e => (.msg ("Failed to create embedding for the query. " ++ e), ⟨1, 0⟩)
      | .ok _ =>
        match env.searchErr with
        | some e => (.msg ("Failed to search sources. " ++ e), ⟨1, 1⟩)
        | none =>
          let results := qdrant_search_with_filter col selected_sources
          if results.isEmpty then
            (.msg "No relevant information found in the selected sources. Try different sources or rephrase your query.", ⟨1, 1⟩)
          else
            (.context results, ⟨1, 1⟩)

end Agent

namespace Claims

open PyHash Qdrant

/-- Chunk dict the worker hands to the gateway in the C1 replay scenario. -/
def c1chunk : Dict :=
  [("text", .str "hello world"), ("filename", .str "notes.txt"),
   ("owner_id", .str "u1"), ("metadata", .obj [])]

/-- Collection after a worker process with hash seed 1 indexes logical id d1. -/
def c1col : Collection Unit :=
  (upsert_chunks (keyFromSeed 1).1 (keyFromSeed 1).2 [] "d1" [c1chunk] [()]).getD []

/-- C1: the point id of chunk 0 of logical id d1 depends on the process
hash secret: a worker with PYTHONHASHSEED 1 and one with seed 2 assign
different ids (values checked against CPython 3.11), so replaying the
same op=c event in another process does not overwrite the chunk set in
place: the one-point set grows to two points. -/
theorem upsert_point_id_not_process_deterministic :
    pointId (keyFromSeed 1).1 (keyFromSeed 1).2 "d1" 0 = 8037012405655370379 ∧
    pointId (keyFromSeed 2).1 (keyFromSeed 2).2 "d1" 0 = 7354926665231528571 ∧
    c1col.length = 1 ∧
    (upsert_chunks (keyFromSeed 2).1 (keyFromSeed 2).2 c1col "d1" [c1chunk] [()]).map
      List.length = some 2 := by
  refine ⟨by decide, by decide, by decide, by decide⟩


/-- Message of the AttributeError the rate limiter raises. -/
def attrErrMsg : String :=
  "AttributeError: type object NotebookSource has no attribute document_id"

/-- C2: check_processing_limit never returns a verdict: building its
query resolves the nonexistent column NotebookSource.document_id and
raises AttributeError for every database state and user; in the upload
path the exception propagates out of the service instead of any
rate-limit rejection (shown on a valid 100-byte upload). -/
theorem check_processing_limit_always_raises :
    (∀ (db : Backend.DBState) (u : String),
        Backend.check_processing_limit db u = .error attrErrMsg)
    ∧ Backend.upload_file_transactional ⟨[], []⟩ "u1" "notes.txt" "text/plain"
        (List.replicate 100 7) "doc1" (some (.error attrErrMsg)) ⟨true, .ok⟩
      = (⟨[], []⟩, .error (.pyError attrErrMsg)) := by
  refine ⟨fun db u => rfl, rfl⟩

/-- Task environment in which extraction succeeds with empty text. -/
def c3env : Worker.TaskEnv Unit :=
  { fileData := [104, 105], extract := .ok "",
    splitText := fun _ => [], embed := fun _ => [], upsertOk := true }

/-- C3 counterexample: when extraction succeeds but yields no text the
worker marks the document failed, not indexed, and upserts nothing. -/
theorem empty_extraction_not_indexed :
    (Worker.process_document c3env "d1" "u1" "notes.txt" []).finalStatus ≠ .indexed ∧
    (Worker.process_document c3env "d1" "u1" "notes.txt" []).finalStatus = .failed := by
  exact ⟨by decide, rfl⟩

/-- C3 amended: a document event whose extraction succeeds but produces
only empty or whitespace text ends with status failed, result False and
no upsert call. -/
theorem empty_extraction_marks_failed {V : Type} (env : Worker.TaskEnv V)
    (docId oid fn : String) (md : Dict) (t : String)
    (hfile : env.fileData.isEmpty = false)
    (hex : env.extract = .ok t) (ht : Worker.pyStrip t = "") :
    Worker.process_document env docId oid fn md =
      { ok := false, finalStatus := .failed, upsertCall := none } := by
  simp [Worker.process_document, Worker.process_source, hfile, hex, ht]

/-- C3 witness: the amended theorem applied to the concrete environment. -/
theorem empty_extraction_marks_failed_witness :
    Worker.process_document c3env "d1" "u1" "notes.txt" [] =
      { ok := false, finalStatus := .failed, upsertCall := none } :=
  empty_extraction_marks_failed c3env "d1" "u1" "notes.txt" [] "" rfl rfl (by decide)

/-- C4: with one source already at position 0 in the notebook, adding a
second source without a position assigns position 0 again (the falsy
integer 0 collapses to -1 in `max_position or -1`) instead of the next
position 1. -/
theorem add_source_position_not_max_plus_one :
    Backend.maxPosition [0] = some 0 ∧
    ((Backend.add_source_to_notebook [⟨"ns1", "nb1", "s1", 0⟩] "ns2" "nb1" "s2" none).1).position = 0 ∧
    ((Backend.add_source_to_notebook [⟨"ns1", "nb1", "s1", 0⟩] "ns2" "nb1" "s2" none).1).position ≠ 0 + 1 := by
  refine ⟨rfl, rfl, by decide⟩

/-- Stored point carrying the logical id in source_id but not in
document_id. -/
def c5point : Point Unit :=
  { id := 11, vec := (),
    payload := [("document_id", .str "other"), ("source_id", .str "s1"),
                ("owner_id", .str "u1")] }

/-- C5 counterexample: a point whose payload matches source_id = s1 but
not document_id = s1 survives delete_document_chunks s1, so the delete
does not remove the OR-match set the claim describes. -/
theorem delete_ignores_source_id :
    payloadMatches c5point.payload "source_id" "s1" = true ∧
    delete_document_chunks [c5point] "s1" = [c5point] := ⟨rfl, rfl⟩

/-- C5 amended: delete_document_chunks removes exactly the points whose
payload field document_id equals the id; no other field is consulted. -/
theorem delete_matches_document_id_only {V : Type} (col : Collection V)
    (id : String) (p : Point V) :
    p ∈ delete_document_chunks col id ↔
      p ∈ col ∧ payloadMatches p.payload "document_id" id = false := by
  simp [delete_document_chunks, List.mem_filter]

/-- C5 witness: the amended characterization applied to the concrete
store: the source_id-matching point is kept. -/
theorem delete_matches_document_id_only_witness :
    c5point ∈ delete_document_chunks [c5point] "s1" :=
  (delete_matches_document_id_only [c5point] "s1" c5point).mpr
    ⟨List.mem_singleton_self c5point, rfl⟩

/-- Stored point owned by userB whose logical id userA selects. -/
def c6foreign : Point Unit :=
  { id := 21, vec := (),
    payload := [("document_id", .str "s1"), ("chunk_index", .num 0),
                ("chunk_text", .str "confidential"), ("filename", .str ""),
                ("metadata", .obj []), ("owner_id", .str "userB")] }

/-- Stored point owned by userA. -/
def c6own : Point Unit :=
  { id := 22, vec := (),
    payload := [("document_id", .str "d2"), ("owner_id", .str "userA")] }

/-- C6 counterexample: the agent search filter built by
_qdrant_search_with_filter keeps a chunk owned by another user whenever
its id is among the selected sources: userA retrieves a chunk whose
owner_id is userB. -/
theorem agent_search_returns_foreign_owner :
    qdrant_search_with_filter [c6foreign] ["s1"] = [c6foreign] ∧
    payloadMatches c6foreign.payload "owner_id" "userA" = false ∧
    payloadMatches c6foreign.payload "owner_id" "userB" = true := ⟨rfl, rfl, rfl⟩

/-- C6 amended: the backend search path narrows by owner (every candidate
of search_similar with an owner filter carries that owner in its
payload), while the agent tool filter matches only selected ids and
attaches no owner condition, so it can return chunks of other owners. -/
theorem retrieval_owner_isolation_amended :
    (∀ (V : Type) (col : Collection V) (u : String) (p : Point V),
        p ∈ search_similar col (some u) →
          payloadMatches p.payload "owner_id" u = true)
    ∧ qdrant_search_with_filter [c6foreign] ["s1"] = [c6foreign]
    ∧ payloadMatches c6foreign.payload "owner_id" "userB" = true := by
  refine ⟨?_, rfl, rfl⟩
  intro V col u p hp
  exact (List.mem_filter.mp hp).2

/-- C6 witness: the owner-filtered backend search applied to a concrete
one-point store returns only the owner-matching point. -/
theorem retrieval_owner_isolation_witness :
    payloadMatches c6own.payload "owner_id" "userA" = true :=
  retrieval_owner_isolation_amended.1 Unit [c6own] "userA" c6own
    (List.mem_filter.mpr ⟨List.mem_singleton_self c6own, rfl⟩)

/-- C7: calling the retrieval tool with an injected state whose selected
source list is empty returns the literal sentinel message with zero
embedding and zero search requests, whatever the environment and the
stored collection. -/
theorem look_up_sources_empty_selection {V : Type} (env : Agent.ToolEnv V)
    (col : Collection V) :
    Agent.look_up_sources env col (some []) =
      (.msg "No sources selected. Please select at least one source and try again.",
       ⟨0, 0⟩) := rfl

/-- C7 witness: the sentinel return on a concrete environment and store. -/
theorem look_up_sources_empty_selection_witness :
    Agent.look_up_sources ⟨true, .ok (), none⟩ ([] : Collection Unit) (some []) =
      (.msg "No sources selected. Please select at least one source and try again.",
       ⟨0, 0⟩) :=
  look_up_sources_empty_selection ⟨true, .ok (), none⟩ []

/-- C9: deletion of an owned document runs blob delete, then event
publish, then row delete, in that order; a blob-delete failure after
retries fails the call with the operation error and leaves the state
(including the document row) unchanged; a row-delete failure after the
blob was removed logs an inconsistency and fails the call. -/
theorem delete_blob_first_row_last (st : Backend.StoreState) (user docId : String)
    (doc : Backend.DocumentRow)
    (hfind : st.documents.find? (fun d => d.id == docId && d.owner_id == user) = some doc) :
    (Backend.delete_document_transactional st user docId ⟨true, true⟩ =
       ({ documents := st.documents.filter fun d => !(d.id == docId),
          blobs := st.blobs.erase doc.object_key },
        .ok docId, [.blobDelete, .publishEvent, .rowDelete]))
    ∧ (Backend.delete_document_transactional st user docId ⟨false, true⟩ =
       (st, .error (.operation "Failed to delete document"),
        [.blobDelete, .logInconsistency]))
    ∧ (Backend.delete_document_transactional st user docId ⟨true, false⟩ =
       ({ st with blobs := st.blobs.erase doc.object_key },
        .error (.operation "Failed to delete document"),
        [.blobDelete, .publishEvent, .rowDelete, .logInconsistency])) := by
  refine ⟨?_, ?_, ?_⟩ <;> simp [Backend.delete_document_transactional, hfind]

/-- Concrete one-document store for the C9 witness. -/
def c9doc : Backend.DocumentRow := ⟨"d1", "u1", "u1/notes.txt", .pending⟩

/-- Concrete store holding c9doc and its blob. -/
def c9st : Backend.StoreState := ⟨[c9doc], ["u1/notes.txt"]⟩

/-- C9 witness: the ordering theorem applied to the concrete store. -/
theorem delete_blob_first_row_last_witness :
    Backend.delete_document_transactional c9st "u1" "d1" ⟨true, true⟩ =
      ({ documents := c9st.documents.filter fun d => !(d.id == "d1"),
         blobs := c9st.blobs.erase c9doc.object_key },
       .ok "d1", [.blobDelete, .publishEvent, .rowDelete]) :=
  (delete_blob_first_row_last c9st "u1" "d1" c9doc rfl).1

/-- C8: two sequential uploads of the same (owner, filename, bytes).
When no row with the derived object key exists and the external writes
succeed, the first upload adds exactly one document row and one blob; the
second is rejected with the conflict error before writing anything:
afterwards exactly one row with that (owner_id, object_key) exists and
the blob store still holds the single blob the first upload put. -/
theorem upload_idempotent_conflict (st0 : Backend.StoreState)
    (user filename mime : String) (data : List Nat) (id1 id2 : String)
    (hdata : data.isEmpty = false)
    (hmax : data.length ≤ Backend.sizeLimitFor (Backend.fileExtension filename) mime)
    (hmin : Backend.MIN_FILE_SIZE_BYTES ≤ data.length)
    (hnew : st0.documents.any
      (fun d => d.owner_id == user && d.object_key == user ++ "/" ++ filename) = false) :
    Backend.upload_file_transactional st0 user filename mime data id1 none ⟨true, .ok⟩
      = ({ documents := st0.documents ++ [⟨id1, user, user ++ "/" ++ filename, .pending⟩],
           blobs := st0.blobs ++ [user ++ "/" ++ filename] },
         .ok ⟨id1, user, user ++ "/" ++ filename, .pending⟩)
    ∧ Backend.upload_file_transactional
        { documents := st0.documents ++ [⟨id1, user, user ++ "/" ++ filename, .pending⟩],
          blobs := st0.blobs ++ [user ++ "/" ++ filename] }
        user filename mime data id2 none ⟨true, .ok⟩
      = ({ documents := st0.documents ++ [⟨id1, user, user ++ "/" ++ filename, .pending⟩],
           blobs := st0.blobs ++ [user ++ "/" ++ filename] },
         .error (.conflict ("File already exists: " ++ filename)))
    ∧ ((st0.documents ++
          [(⟨id1, user, user ++ "/" ++ filename, .pending⟩ : Backend.DocumentRow)]).filter
         (fun d => d.owner_id == user && d.object_key == user ++ "/" ++ filename)).length = 1 := by
  have hgt : ¬ data.length > Backend.sizeLimitFor (Backend.fileExtension filename) mime :=
    Nat.not_lt.mpr hmax
  have hlt : ¬ data.length < Backend.MIN_FILE_SIZE_BYTES := Nat.not_lt.mpr hmin
  refine ⟨?_, ?_, ?_⟩
  · simp [Backend.upload_file_transactional, hdata, hgt, hlt, hnew]
  · simp [Backend.upload_file_transactional, hdata, hgt, hlt, List.any_append]
  · rw [List.filter_append]
    rw [List.filter_eq_nil_iff.mpr ?_]
    · simp
    · intro d hd
      have := (List.any_eq_false).mp hnew d hd
      simpa using this

/-- C8 witness: the idempotency theorem applied to an empty store and a
100-byte text upload. -/
theorem upload_idempotent_conflict_witness :
    Backend.upload_file_transactional
        { documents := [⟨"doc1", "u1", "u1/notes.txt", .pending⟩],
          blobs := ["u1/notes.txt"] }
        "u1" "notes.txt" "text/plain" (List.replicate 100 7) "doc2" none ⟨true, .ok⟩
      = ({ documents := [⟨"doc1", "u1", "u1/notes.txt", .pending⟩],
           blobs := ["u1/notes.txt"] },
         .error (.conflict "File already exists: notes.txt")) := by
  have h := (upload_idempotent_conflict ⟨[], []⟩ "u1" "notes.txt" "text/plain"
    (List.replicate 100 7) "doc1" "doc2" rfl (by decide) (by decide) rfl).2.1
  simpa using h

/-- C10: every payload the gateway writes has exactly the six fields
document_id, chunk_index, chunk_text, filename, metadata and owner_id —
never a source_id field — with the logical id stored under document_id;
and the URL pipeline issues its upsert with the source id as that
logical id. -/
theorem payload_keys_no_source_id :
    (∀ (docId : String) (i : Nat) (chunk pl : Dict),
        mkPayload docId i chunk = some pl →
          pl.map Prod.fst =
              ["document_id", "chunk_index", "chunk_text", "filename", "metadata", "owner_id"]
            ∧ dictGet pl "source_id" = none
            ∧ dictGet pl "document_id" = some (.str docId))
    ∧ (∀ (V : Type) (env : Worker.TaskEnv V) (sid oid : String) (md : Dict)
          (call : String × List Dict × List V),
        (Worker.process_url_source env sid oid md).upsertCall = some call →
          call.1 = sid) := by
  constructor
  · intro docId i chunk pl h
    unfold mkPayload at h
    split at h
    · cases h
      exact ⟨rfl, rfl, rfl⟩
    · cases h
  · intro V env sid oid md call h
    unfold Worker.process_url_source at h
    repeat'
      first
        | (cases h; rfl)
        | cases h
        | split at h
        | dsimp only at h

/-- Chunk dict with text and owner for the C10 witness. -/
def c10chunk : Dict :=
  [("text", .str "hello"), ("source_id", .str "s1"), ("source_type", .str "url"),
   ("url", .str "https://example.com"), ("owner_id", .str "u1"), ("metadata", .obj [])]

/-- URL task environment that succeeds end to end. -/
def c10env : Worker.TaskEnv Unit :=
  { fileData := [1], extract := .ok "hello", splitText := fun t => [t],
    embed := fun ts => ts.map (fun _ => ()), upsertOk := true }

/-- C10 witness: the payload of chunk 0 of c10chunk under logical id s1,
and the upsert call of a successful URL run, both at concrete inputs. -/
theorem payload_keys_no_source_id_witness :
    ((mkPayload "s1" 0 c10chunk).getD []).map Prod.fst =
        ["document_id", "chunk_index", "chunk_text", "filename", "metadata", "owner_id"]
      ∧ dictGet ((mkPayload "s1" 0 c10chunk).getD []) "source_id" = none
      ∧ ((Worker.process_url_source c10env "s1" "u1"
            [("url", .str "https://example.com")]).upsertCall.map Prod.fst) = some "s1" := by
  have h1 := payload_keys_no_source_id.1 "s1" 0 c10chunk
    ((mkPayload "s1" 0 c10chunk).getD []) rfl
  have h2 := payload_keys_no_source_id.2 Unit c10env "s1" "u1"
    [("url", .str "https://example.com")]
    ((Worker.process_url_source c10env "s1" "u1"
        [("url", .str "https://example.com")]).upsertCall.getD ("", [], []))
    rfl
  exact ⟨h1.1, h1.2.1, by rw [show (Worker.process_url_source c10env "s1" "u1"
    [("url", .str "https://example.com")]).upsertCall.map Prod.fst
      = some "s1" from congrArg (Option.map Prod.fst) rfl]⟩

end Claims
